import Mathlib

/-!
Shallow embedding of the data-source abstraction and aggregation pipeline of
the auto-diagnostic command line tool.

Conventions of the embedding:
* Rust panics (`panic!`, `assert!`, `.unwrap()`, `.expect(..)`) are modelled as
  `Except.error (RunError.panic msg)` with the exact panic message.
* Errors propagated with the `?` operator are modelled as `Except.error`
  values threaded through explicit `match` expressions.
* The external AWS service clients are injected through the trait parameters
  of the fetchers; they are modelled by small "client model" structures that
  hold the responses the client returns, exactly as the test doubles of the
  repository do.
* The csv crate writer is modelled by `Csv.Writer`.  The crate default is a
  non-flexible writer: every record must have the same number of fields as
  the first record written, otherwise `write_record` returns an
  unequal-lengths error.  A record with zero fields is written as a single
  empty quoted field.  A field is quoted exactly when it contains a comma, a
  double quote, a newline or a carriage return.
* `f64` metric values are modelled by their decimal rendering (a `String`):
  the only operation the code performs on a metric value is `to_string`.
* `u8`/`i64` integers carry no overflowing arithmetic in the modelled code,
  so they are modelled as `Nat`/`Int`.
-/

/-- Failures of a run: a Rust panic carrying its message, or the csv crate
unequal-lengths error carrying the expected and the actual field count. -/
inductive RunError where
  | panic (msg : String)
  | unequalLengths (expected got : Nat)
deriving DecidableEq, Repr

/-- Configuration of an app-description data source (lib/config.rs). -/
structure AppDescConfig where
  order_no : Nat
  description : String
deriving DecidableEq, Repr

/-- Configuration of an EC2 data source (lib/config.rs). -/
structure Ec2Config where
  order_no : Nat
  instance_name : String
deriving DecidableEq, Repr

/-- Configuration of an RDS data source (lib/config.rs). -/
structure RdsConfig where
  order_no : Nat
  db_identifier : String
deriving DecidableEq, Repr

/-- Configuration of a Cloudwatch metric data source (lib/config.rs); the
optional `metric_unit` field is the one read by `build_description` in
datasource/cloudwatch_metric.rs. -/
structure CloudwatchMetricConfig where
  order_no : Nat
  dimension_name : String
  dimension_value : String
  metric_identifier : String
  metric_namespace : String
  metric_name : String
  metric_stat : String
  metric_unit : Option String
deriving DecidableEq, Repr

/-- Configuration of a Cloudwatch log-insight data source (lib/config.rs). -/
structure CloudwatchLogInsightConfig where
  order_no : Nat
  description : String
  log_group_name : String
  query : String
  result_columns : List String
deriving DecidableEq, Repr

/-- The uniform fetch result (lib/prompt.rs): description lines plus an
optional tabular data payload. -/
structure PromptData where
  description : List String
  data : Option String
deriving DecidableEq, Repr

namespace Csv

/-- The csv crate quotes a field exactly when it contains a delimiter, a
quote, or a record terminator character (QuoteStyle::Necessary). -/
def needsQuote (s : String) : Bool :=
  s.data.any fun c => c = ',' || c = '"' || c = '\n' || c = '\r'

/-- Double every quote inside a quoted field. -/
def escapeQuotes (s : String) : String :=
  String.join (s.toList.map fun c => if c = '"' then "\"\"" else String.singleton c)

/-- Rendering of one field. -/
def renderField (s : String) : String :=
  if needsQuote s then "\"" ++ escapeQuotes s ++ "\"" else s

/-- Rendering of one record: fields separated by commas, terminated by a
newline. -/
def renderRecord (fields : List String) : String :=
  String.intercalate "," (fields.map renderField) ++ "\n"

/-- State of a csv writer: the bytes written so far and the field count of
the first record, against which the crate checks every later record. -/
structure Writer where
  buffer : String
  firstFieldCount : Option Nat
deriving DecidableEq, Repr

/-- A fresh writer over an empty byte vector. -/
def Writer.init : Writer := { buffer := "", firstFieldCount := none }

/-- Model of `csv::Writer::write_record`.  A record with zero fields is
written as a single empty quoted field.  With the default non-flexible
writer, a record whose field count differs from the field count of the
first record makes `write_record` return the unequal-lengths error. -/
def Writer.writeRecord (w : Writer) (fields : List String) : Except RunError Writer :=
  let rendered := if fields.isEmpty then "\"\"\n" else renderRecord fields
  let count := if fields.isEmpty then 1 else fields.length
  match w.firstFieldCount with
  | none => .ok { buffer := w.buffer ++ rendered, firstFieldCount := some count }
  | some n =>
    if count = n then .ok { w with buffer := w.buffer ++ rendered }
    else .error (.unequalLengths n count)

end Csv

/-- A chrono-tz timezone, modelled as a fixed offset from UTC together with
the abbreviation that its offset displays as (none of the verified claims
involves a daylight-saving transition). -/
structure Tz where
  name : String
  offset_seconds : Int
deriving DecidableEq, Repr

/-- The resolved time range of a run (lib/context.rs). -/
structure DateTimeRange where
  start_time : Int
  end_time : Int
  time_zone : Tz
deriving DecidableEq, Repr

namespace Chrono

/-- Zero-pad a number to two digits. -/
def pad2 (n : Nat) : String := if n < 10 then "0" ++ toString n else toString n

/-- Zero-pad a number to three digits. -/
def pad3 (n : Nat) : String :=
  if n < 10 then "00" ++ toString n
  else if n < 100 then "0" ++ toString n
  else toString n

/-- Zero-pad a number to four digits. -/
def pad4 (n : Nat) : String :=
  if n < 10 then "000" ++ toString n
  else if n < 100 then "00" ++ toString n
  else if n < 1000 then "0" ++ toString n
  else toString n

/-- Convert a count of days since 1970-01-01 to a civil (year, month, day)
date, the standard era-based algorithm with floor division. -/
def civilFromDays (z0 : Int) : Int × Nat × Nat :=
  let z := z0 + 719468
  let era := Int.ediv z 146097
  let doe := (z - era * 146097).toNat
  let yoe := (doe - doe / 1460 + doe / 36524 - doe / 146096) / 365
  let y := (yoe : Int) + era * 400
  let doy := doe - (365 * yoe + yoe / 4 - yoe / 100)
  let mp := (5 * doy + 2) / 153
  let d := doy - (153 * mp + 2) / 5 + 1
  let m := if mp < 10 then mp + 3 else mp - 9
  (if m ≤ 2 then y + 1 else y, m, d)

/-- Model of the default chrono rendering of a timezone-converted instant,
as produced for an epoch-millisecond timestamp by `from_timestamp_millis`
followed by `with_timezone` and `Display`: local civil date and time, a
fractional part only when the sub-second part is non-zero, then the
timezone abbreviation. -/
def formatTimestampMillis (tz : Tz) (millis : Int) : String :=
  let secsUtc := Int.ediv millis 1000
  let msub := (Int.emod millis 1000).toNat
  let localSecs := secsUtc + tz.offset_seconds
  let days := Int.ediv localSecs 86400
  let sod := (localSecs - days * 86400).toNat
  let ymd := civilFromDays days
  let frac := if msub = 0 then "" else "." ++ pad3 msub
  pad4 ymd.1.toNat ++ "-" ++ pad2 ymd.2.1 ++ "-" ++ pad2 ymd.2.2 ++ " " ++
    pad2 (sod / 3600) ++ ":" ++ pad2 (sod / 60 % 60) ++ ":" ++ pad2 (sod % 60) ++
    frac ++ " " ++ tz.name

end Chrono

namespace app_description

/-- datasource/app_description.rs `fetch_data`: a fixed header line plus the
configured description, no data payload.  The Rust function always returns
`Ok`, so it is modelled as a total function. -/
def fetch_data (config : AppDescConfig) : PromptData :=
  { description := ["Information: [App Description]", config.description],
    data := none }

end app_description

namespace ec2

/-- The fields of an `aws_sdk_ec2::types::Instance` that the fetcher reads.
Each is read through `.unwrap()` in the source; the model carries them as
present values (their absence is a panic exercised by no claim). -/
structure Instance where
  instance_id : String
  instance_type : String
  core_count : Int
  threads_per_core : Int
  state_name : String
deriving DecidableEq, Repr

/-- Model of the injected `Ec2Client`: the `describe_instances` response,
a list of reservations each holding a list of instances that carry the
configured name tag. -/
structure ClientModel where
  reservations : List (List Instance)
deriving DecidableEq, Repr

/-- The instances collected from every reservation of the response, in
response order. -/
def instancesOf (client : ClientModel) : List Instance :=
  client.reservations.flatMap id

/-- datasource/ec2.rs `fetch_instances`: collect all matching instances and
`assert!` that at least one was found. -/
def fetch_instances (client : ClientModel) (ec2_instance_name : String) :
    Except RunError (List Instance) :=
  let instances := instancesOf client
  if instances.isEmpty then
    .error (.panic ("Unable to find EC2 instance with name: " ++ ec2_instance_name))
  else
    .ok instances

/-- datasource/ec2.rs `build_description`. -/
def build_description (config : Ec2Config) (inst : Instance) : List String :=
  [ "Information: [EC2 Instance]",
    "Instance name: [`" ++ config.instance_name ++ "`]",
    "Instance id: [`" ++ inst.instance_id ++ "`]",
    "Instance type: [`" ++ inst.instance_type ++ "`]",
    "Cpu core count: [" ++ toString inst.core_count ++ "]",
    "Cpu threads per core: [" ++ toString inst.threads_per_core ++ "]",
    "State: [" ++ inst.state_name ++ "]" ]

/-- datasource/ec2.rs `fetch_data`: one PromptData per matched instance,
never a data payload. -/
def fetch_data (client : ClientModel) (config : Ec2Config) :
    Except RunError (List PromptData) :=
  match fetch_instances client config.instance_name with
  | .error e => .error e
  | .ok instances =>
    .ok (instances.map fun inst =>
      { description := build_description config inst, data := none })

end ec2

namespace rds

/-- The fields of an `aws_sdk_rds::types::DbInstance` that the fetcher
reads.  The identifier is read with `unwrap_or_default`, hence optional;
the remaining metadata fields are read with `.unwrap()` and modelled as
present. -/
structure DbInstance where
  db_instance_identifier : Option String
  db_instance_class : String
  engine : String
  engine_version : String
  storage_type : String
  db_instance_status : String
  multi_az : Bool
deriving DecidableEq, Repr

/-- Model of the injected `RdsClient`: the `describe_db_instances`
response. -/
structure ClientModel where
  db_instances : List DbInstance
deriving DecidableEq, Repr

/-- datasource/rds.rs `build_description`; a Rust `bool` displays as
`true` or `false`. -/
def build_description (config : RdsConfig) (inst : DbInstance) : List String :=
  [ "Information: [RDS Instance]",
    "DB identifier: [`" ++ config.db_identifier ++ "`]",
    "Class: [`" ++ inst.db_instance_class ++ "`]",
    "Engine: [" ++ inst.engine ++ " " ++ inst.engine_version ++ "]",
    "Storage type: [" ++ inst.storage_type ++ "]",
    "Status: [" ++ inst.db_instance_status ++ "]",
    "Multi AZ: [" ++ (if inst.multi_az then "true" else "false") ++ "]" ]

/-- datasource/rds.rs `fetch_data`: linear search for the first instance
whose identifier equals the configured one, panic when none matches,
never a data payload. -/
def fetch_data (client : ClientModel) (config : RdsConfig) :
    Except RunError PromptData :=
  match client.db_instances.find?
      (fun d => d.db_instance_identifier.getD "" = config.db_identifier) with
  | some inst => .ok { description := build_description config inst, data := none }
  | none => .error (.panic ("Unable to find DB instance with name: " ++ config.db_identifier))

end rds

namespace cloudwatch_metric

/-- An `aws_sdk_cloudwatch::types::Dimension` with its name and value (read
back through `.unwrap()` by `build_description`). -/
structure Dimension where
  name : String
  value : String
deriving DecidableEq, Repr

/-- One `MetricDataResult`: parallel arrays of timestamps (epoch
milliseconds, the value of `DateTime::to_millis`) and of values (`f64`
numbers modelled by their decimal rendering, the only use the code makes of
a value being `to_string`). -/
structure MetricDataResult where
  timestamps : List Int
  values : List String
deriving DecidableEq, Repr

/-- The `GetMetricDataOutput` response of one metric query. -/
structure GetMetricDataOutput where
  metric_data_results : List MetricDataResult
deriving DecidableEq, Repr

/-- The records written by datasource/cloudwatch_metric.rs `extract_to_csv`:
for every result, the timestamp/value pairs taken in reverse order
(`.iter().rev().zip(values.iter().rev())`), each as a two-field record with
the timestamp rendered in the display timezone. -/
def extractRecords (range : DateTimeRange) (output : GetMetricDataOutput) :
    List (List String) :=
  output.metric_data_results.flatMap fun result =>
    (result.timestamps.reverse.zip result.values.reverse).map fun tv =>
      [Chrono.formatTimestampMillis range.time_zone tv.1, tv.2]

/-- datasource/cloudwatch_metric.rs `extract_to_csv`: a `timestamp,value`
header record, one record per pair in reverse order, and the sentinel text
when the row counter stays at zero.  The header and every record have
exactly two fields, so the width check of the csv writer never fires and
the writer produces the plain concatenation of the rendered records. -/
def extract_to_csv (range : DateTimeRange) (output : GetMetricDataOutput) :
    Except RunError (Option String) :=
  let records := extractRecords range output
  if records.length = 0 then
    .ok (some "No applicable data found\n")
  else
    .ok (some (Csv.renderRecord ["timestamp", "value"] ++
      String.join (records.map Csv.renderRecord)))

/-- datasource/cloudwatch_metric.rs `build_dimension`: for the compute
namespace the configured dimension value is an instance name resolved
through the EC2 lookup into one dimension per instance id; otherwise a
single verbatim dimension. -/
def build_dimension (ec2_client : ec2.ClientModel) (config : CloudwatchMetricConfig) :
    Except RunError (List Dimension) :=
  if config.metric_namespace = "AWS/EC2" then
    match ec2.fetch_instances ec2_client config.dimension_value with
    | .error e => .error e
    | .ok instances =>
      .ok (instances.map fun inst =>
        { name := config.dimension_name, value := inst.instance_id })
  else
    .ok [{ name := config.dimension_name, value := config.dimension_value }]

/-- datasource/cloudwatch_metric.rs `build_description`: three fixed lines
plus an optional unit line. -/
def build_description (config : CloudwatchMetricConfig) (dimension : Dimension) :
    List String :=
  let base :=
    [ "Information: [Cloudwatch " ++ config.metric_namespace ++ "]",
      "Metric: [`" ++ config.metric_name ++ "`]",
      "Dimension: [`" ++ dimension.name ++ ":" ++ dimension.value ++ "`]" ]
  match config.metric_unit with
  | some unit => base ++ ["Unit: " ++ unit]
  | none => base

/-- The per-dimension loop body of `fetch_data`: issue one query per
resolved dimension and push one PromptData per response, failing fast.
The injected `CloudwatchClient` is modelled as the map from the dimension
of the issued query to the response it returns. -/
def fetch_loop (client : Dimension → GetMetricDataOutput)
    (config : CloudwatchMetricConfig) (range : DateTimeRange) :
    List Dimension → Except RunError (List PromptData)
  | [] => .ok []
  | dimension :: rest =>
    match extract_to_csv range (client dimension) with
    | .error e => .error e
    | .ok data =>
      match fetch_loop client config range rest with
      | .error e => .error e
      | .ok tail =>
        .ok ({ description := build_description config dimension, data := data } :: tail)

/-- datasource/cloudwatch_metric.rs `fetch_data`. -/
def fetch_data (client : Dimension → GetMetricDataOutput) (ec2_client : ec2.ClientModel)
    (config : CloudwatchMetricConfig) (range : DateTimeRange) :
    Except RunError (List PromptData) :=
  match build_dimension ec2_client config with
  | .error e => .error e
  | .ok dimensions => fetch_loop client config range dimensions

end cloudwatch_metric

namespace cloudwatch_log_insight

/-- One field of a log-insight result row. -/
structure ResultField where
  field : String
  value : String
deriving DecidableEq, Repr

/-- The query status values of the logs service; the rendering is the one
the Display implementation of the status type produces. -/
inductive QueryStatus where
  | scheduled
  | running
  | complete
  | cancelled
  | failed
  | timeout
  | unknownValue
deriving DecidableEq, Repr

/-- Display rendering of a query status. -/
def QueryStatus.display : QueryStatus → String
  | .scheduled => "Scheduled"
  | .running => "Running"
  | .complete => "Complete"
  | .cancelled => "Cancelled"
  | .failed => "Failed"
  | .timeout => "Timeout"
  | .unknownValue => "Unknown"

/-- The polling loop of datasource/cloudwatch_log_insight.rs `fetch_data`
(lines 54-62), driven by the successive statuses the service reports:
`Complete` breaks out of the loop, `Running` and `Scheduled` sleep one
second and poll again, every other status panics.  The result counts the
one-second sleeps performed and the `get_query_results` calls issued.  A
trace that never reaches a terminal status corresponds to the loop polling
forever; an exhausted finite trace is modelled as an error. -/
def pollStatuses : List QueryStatus → Except RunError (Nat × Nat)
  | [] => .error (.panic "status queue exhausted")
  | s :: rest =>
    match s with
    | .complete => .ok (0, 1)
    | .running | .scheduled =>
      match pollStatuses rest with
      | .error e => .error e
      | .ok wp => .ok (wp.1 + 1, wp.2 + 1)
    | _ => .error (.panic ("Unexpected status: " ++ s.display))

/-- The expected column under the cycling cursor: the cursor is the index
of the next configured column, advanced modulo the column count. -/
def expectedCol (cols : List String) (i : Nat) : String := cols.getD i ""

/-- The inner field loop of `extract_to_csv` (lines 90-99): `@ptr` fields
are discarded; every other field must carry the expected column name, its
value is pushed and the cursor advances, a mismatch panics with the
expected and the actual column name.  Returns the pushed values and the
cursor left for the next row. -/
def processFields (cols : List String) : Nat → List ResultField →
    Except RunError (List String × Nat)
  | i, [] => .ok ([], i)
  | i, f :: rest =>
    if f.field = "@ptr" then
      processFields cols i rest
    else if expectedCol cols i = f.field then
      match processFields cols ((i + 1) % cols.length) rest with
      | .error e => .error e
      | .ok vi => .ok (f.value :: vi.1, vi.2)
    else
      .error (.panic ("Expected column not matched! Expected: " ++ expectedCol cols i ++
        ", Actual: " ++ f.field))

/-- The row loop of `extract_to_csv` (lines 86-103): process the fields of
each row, write the collected values as one record, count the row; the
cursor is threaded from row to row without reset. -/
def processRows (cols : List String) : List (List ResultField) → Csv.Writer → Nat → Nat →
    Except RunError (Csv.Writer × Nat)
  | [], w, _, rows => .ok (w, rows)
  | row :: rest, w, i, rows =>
    match processFields cols i row with
    | .error e => .error e
    | .ok vi =>
      match w.writeRecord vi.1 with
      | .error e => .error e
      | .ok w2 => processRows cols rest w2 vi.2 (rows + 1)

/-- datasource/cloudwatch_log_insight.rs `extract_to_csv`: write the header
record of the configured column names, take the first expected column from
the cycled column list (`.next().unwrap()`, a panic when the configured
list is empty), run the row loop, and return the sentinel text when zero
rows were counted, otherwise the written csv text. -/
def extract_to_csv (results : List (List ResultField))
    (config : CloudwatchLogInsightConfig) : Except RunError (Option String) :=
  match Csv.Writer.init.writeRecord config.result_columns with
  | .error e => .error e
  | .ok w1 =>
    if config.result_columns.isEmpty then
      .error (.panic "called `Option::unwrap()` on a `None` value")
    else
      match processRows config.result_columns results w1 0 0 with
      | .error e => .error e
      | .ok wr =>
        if wr.2 = 0 then .ok (some "No applicable data found\n")
        else .ok (some wr.1.buffer)

/-- datasource/cloudwatch_log_insight.rs `build_description`. -/
def build_description (config : CloudwatchLogInsightConfig) : List String :=
  [ "Information: [Cloudwatch Log Insights]",
    "Description: [" ++ config.description ++ "]",
    "Log Group: [`" ++ config.log_group_name ++ "`]" ]

/-- Model of the injected `CloudwatchLogsClient`: the query id of the
`start_query` response, the successive statuses the polled
`get_query_results` calls report, and the result rows of the response. -/
structure ClientModel where
  query_id : Option String
  statuses : List QueryStatus
  results : List (List ResultField)
deriving DecidableEq, Repr

/-- datasource/cloudwatch_log_insight.rs `fetch_data`: start the query
(`.expect` on a missing query id), poll until complete, then extract. -/
def fetch_data (client : ClientModel) (config : CloudwatchLogInsightConfig)
    (range : DateTimeRange) : Except RunError PromptData :=
  match client.query_id with
  | none => .error (.panic "Query Id is missing from response")
  | some _ =>
    match pollStatuses client.statuses with
    | .error e => .error e
    | .ok _ =>
      match extract_to_csv client.results config with
      | .error e => .error e
      | .ok data => .ok { description := build_description config, data := data }

end cloudwatch_log_insight

/-- The closed variant type of datasource/ds.rs, each variant carrying its
type-specific configuration. -/
inductive DataSource where
  | appDescription (config : AppDescConfig)
  | ec2 (config : Ec2Config)
  | rds (config : RdsConfig)
  | cloudwatchMetric (config : CloudwatchMetricConfig)
  | cloudwatchLogInsight (config : CloudwatchLogInsightConfig)
deriving DecidableEq, Repr

/-- datasource/ds.rs `order_no`: the sort key of a data source. -/
def DataSource.order_no : DataSource → Nat
  | .appDescription config => config.order_no
  | .ec2 config => config.order_no
  | .rds config => config.order_no
  | .cloudwatchMetric config => config.order_no
  | .cloudwatchLogInsight config => config.order_no

/-- The comparison of `impl Ord for DataSource`: data sources compare by
`order_no` alone, a weak ordering in which distinct sources with equal keys
compare equal. -/
def DataSource.leByOrderNo (a b : DataSource) : Prop := a.order_no ≤ b.order_no

instance : DecidableRel DataSource.leByOrderNo := fun a b =>
  inferInstanceAs (Decidable (a.order_no ≤ b.order_no))

instance : IsTotal DataSource DataSource.leByOrderNo :=
  ⟨fun a b => Nat.le_total a.order_no b.order_no⟩

instance : IsTrans DataSource DataSource.leByOrderNo :=
  ⟨fun _ _ _ => Nat.le_trans⟩

/-- The configuration document sections that contribute data sources
(lib/config.rs). -/
structure Config where
  app_description : Option (List AppDescConfig)
  ec2 : Option (List Ec2Config)
  rds : Option (List RdsConfig)
  cloudwatch_metric : Option (List CloudwatchMetricConfig)
  cloudwatch_log_insight : Option (List CloudwatchLogInsightConfig)
deriving DecidableEq, Repr

/-- The data sources a present configuration section pushes, in section
order; an absent section pushes none. -/
def pushAll {β : Type} (mk : β → DataSource) : Option (List β) → List DataSource
  | some configs => configs.map mk
  | none => []

/-- lib/context.rs `build_context`, lines 31-73: push the configured data
sources section by section in the fixed section order, then sort the list
in place.  `Vec::sort` is a stable sort driven by the `Ord` comparison on
`order_no`; it is modelled by insertion sort, which is also stable, and any
two stable sorts under the same weak ordering produce the same list.  The
aggregation loop of lib/prompt.rs `build_prompt_data` visits exactly this
list front to back. -/
def build_context_data_sources (config : Config) : List DataSource :=
  let sources :=
    pushAll DataSource.appDescription config.app_description ++
    pushAll DataSource.ec2 config.ec2 ++
    pushAll DataSource.rds config.rds ++
    pushAll DataSource.cloudwatchMetric config.cloudwatch_metric ++
    pushAll DataSource.cloudwatchLogInsight config.cloudwatch_log_insight
  sources.insertionSort DataSource.leByOrderNo

/-! ## Verified claims -/

/-- A configuration document with one data source of every type, carrying
order numbers 5, 4, 3, 2, 1 in configuration (section) order. -/
def exampleReversedConfig : Config :=
  { app_description := some [⟨5, "App description"⟩],
    ec2 := some [⟨4, "ec2-instance"⟩],
    rds := some [⟨3, "rds-instance"⟩],
    cloudwatch_metric := some [⟨2, "dimension-name", "dimension-value",
      "metric-identifier", "metric-namespace", "metric-name", "metric-stat", none⟩],
    cloudwatch_log_insight := some [⟨1, "description", "log-group-name", "query",
      ["col1", "col2"]⟩] }

/-- C1: the sorted data source list of the execution context, which the
aggregation loop visits front to back, is in non-decreasing `order_no`
(the comparison of the `Ord` implementation is by `order_no` only); for
sources configured with order numbers [5, 4, 3, 2, 1] the visitation order
is the reverse of the configuration order, with order numbers
(1, 2, 3, 4, 5). -/
theorem C1_sources_sorted_by_order_no :
    (∀ config : Config,
        (build_context_data_sources config).Pairwise DataSource.leByOrderNo) ∧
    build_context_data_sources exampleReversedConfig =
      [ DataSource.cloudwatchLogInsight ⟨1, "description", "log-group-name", "query",
          ["col1", "col2"]⟩,
        DataSource.cloudwatchMetric ⟨2, "dimension-name", "dimension-value",
          "metric-identifier", "metric-namespace", "metric-name", "metric-stat", none⟩,
        DataSource.rds ⟨3, "rds-instance"⟩,
        DataSource.ec2 ⟨4, "ec2-instance"⟩,
        DataSource.appDescription ⟨5, "App description"⟩ ] ∧
    (build_context_data_sources exampleReversedConfig).map DataSource.order_no =
      [1, 2, 3, 4, 5] := by
  refine ⟨fun config => ?_, by decide, by decide⟩
  exact List.sorted_insertionSort DataSource.leByOrderNo _

/-- The log-insight configuration of the C2 extraction example. -/
def c2Config : CloudwatchLogInsightConfig :=
  ⟨1, "", "", "", ["column1", "column2"]⟩

/-- C2: on the two example rows matched against result columns
`[column1, column2]`, the log-insight extraction produces exactly the csv
text of the header row followed by one record per row; `@ptr` fields, when
present, are discarded before the positional match and leave the output
unchanged. -/
theorem C2_log_extraction_example :
    cloudwatch_log_insight.extract_to_csv
        [ [⟨"column1", "row1-column1"⟩, ⟨"column2", "row1-column2"⟩],
          [⟨"column1", "row2-column1"⟩, ⟨"column2", "row2-column2"⟩] ] c2Config =
      .ok (some "column1,column2\nrow1-column1,row1-column2\nrow2-column1,row2-column2\n") ∧
    cloudwatch_log_insight.extract_to_csv
        [ [⟨"@ptr", "discarded"⟩, ⟨"column1", "row1-column1"⟩, ⟨"column2", "row1-column2"⟩],
          [⟨"@ptr", "discarded"⟩, ⟨"column1", "row2-column1"⟩, ⟨"column2", "row2-column2"⟩] ]
        c2Config =
      .ok (some "column1,column2\nrow1-column1,row1-column2\nrow2-column1,row2-column2\n") :=
  ⟨rfl, rfl⟩

/-- C7: polling through the statuses [Scheduled, Running, Complete] performs
exactly two one-second waits (and three poll calls) before the loop breaks
with the successful result; the first failure status observed (Cancelled,
Failed, Timeout or the unknown status) panics at once with the message
naming the status, independently of any further status the service would
report, so no further polling occurs. -/
theorem C7_poll_wait_counts :
    cloudwatch_log_insight.pollStatuses [.scheduled, .running, .complete] = .ok (2, 3) ∧
    ∀ (s : cloudwatch_log_insight.QueryStatus) (rest : List cloudwatch_log_insight.QueryStatus),
      s = .cancelled ∨ s = .failed ∨ s = .timeout ∨ s = .unknownValue →
      cloudwatch_log_insight.pollStatuses (s :: rest) =
        .error (.panic ("Unexpected status: " ++ s.display)) := by
  refine ⟨rfl, ?_⟩
  rintro s rest (rfl | rfl | rfl | rfl) <;> rfl

/-- Witness for C7: a Failed status aborts at once with its message even
when a Complete status would have followed. -/
theorem C7_poll_wait_counts_witness :
    cloudwatch_log_insight.pollStatuses [.failed, .complete] =
      .error (.panic "Unexpected status: Failed") :=
  C7_poll_wait_counts.2 .failed [.complete] (Or.inr (Or.inl rfl))

/-- The number of timestamp/value pairs the metric extraction loop visits:
the final value of its row counter. -/
def pointCount (output : cloudwatch_metric.GetMetricDataOutput) : Nat :=
  (output.metric_data_results.map fun r => min r.timestamps.length r.values.length).sum

theorem extractRecords_length (range : DateTimeRange)
    (output : cloudwatch_metric.GetMetricDataOutput) :
    (cloudwatch_metric.extractRecords range output).length = pointCount output := by
  obtain ⟨rs⟩ := output
  unfold cloudwatch_metric.extractRecords pointCount
  induction rs with
  | nil => rfl
  | cons r rs ih =>
    simp only [List.flatMap_cons, List.map_cons, List.sum_cons, List.length_append] at *
    rw [ih]
    simp [Nat.min_comm]

/-- C4: a metric query result with zero data points, and a log-insight
query result with zero rows, both extract to a present data payload that
is exactly the sentinel text, which is neither the empty string nor an
absent field.  (The log-insight extractor reads the first expected column
off the configured column list before looking at the rows, so the
configured column list is assumed non-empty.) -/
theorem C4_empty_result_sentinel :
    (∀ (range : DateTimeRange) (output : cloudwatch_metric.GetMetricDataOutput),
        pointCount output = 0 →
        cloudwatch_metric.extract_to_csv range output =
          .ok (some "No applicable data found\n")) ∧
    (∀ config : CloudwatchLogInsightConfig,
        config.result_columns ≠ [] →
        cloudwatch_log_insight.extract_to_csv [] config =
          .ok (some "No applicable data found\n")) ∧
    ("No applicable data found\n" ≠ "" ∧
      some "No applicable data found\n" ≠ (none : Option String)) := by
  refine ⟨fun range output h => ?_, fun config h => ?_, by decide, by simp⟩
  · have hlen : (cloudwatch_metric.extractRecords range output).length = 0 :=
      (extractRecords_length range output).trans h
    simp [cloudwatch_metric.extract_to_csv, hlen]
  · match hc : config.result_columns with
    | [] => exact absurd hc h
    | c :: cs =>
      simp [cloudwatch_log_insight.extract_to_csv, Csv.Writer.writeRecord, Csv.Writer.init,
        hc, cloudwatch_log_insight.processRows]

/-- Witness for C4: a result with one empty metric series extracts to the
sentinel, as does a zero-row log result under two configured columns. -/
theorem C4_empty_result_sentinel_witness :
    pointCount ⟨[⟨[], []⟩]⟩ = 0 ∧
    cloudwatch_metric.extract_to_csv ⟨0, 0, ⟨"UTC", 0⟩⟩ ⟨[⟨[], []⟩]⟩ =
      .ok (some "No applicable data found\n") ∧
    cloudwatch_log_insight.extract_to_csv [] c2Config =
      .ok (some "No applicable data found\n") :=
  ⟨rfl, C4_empty_result_sentinel.1 ⟨0, 0, ⟨"UTC", 0⟩⟩ ⟨[⟨[], []⟩]⟩ rfl,
    C4_empty_result_sentinel.2.1 c2Config (by simp [c2Config])⟩

theorem zip_reverse_eq {α β : Type} :
    ∀ (l₁ : List α) (l₂ : List β), l₁.length = l₂.length →
      l₁.reverse.zip l₂.reverse = (l₁.zip l₂).reverse
  | [], [], _ => rfl
  | [], _ :: _, h => by simp at h
  | _ :: _, [], h => by simp at h
  | a :: l₁, b :: l₂, h => by
    have h' : l₁.length = l₂.length := by simpa using h
    rw [List.reverse_cons, List.reverse_cons, List.zip_append (by simp [h']),
      zip_reverse_eq l₁ l₂ h']
    simp

/-- C5: for a metric result holding parallel timestamp and value arrays,
the extraction emits exactly the header followed by the timestamp/value
records in reverse input order, each a two-column record with the
timestamp rendered in the display timezone; when the input points are
ordered oldest to newest, the emitted records therefore carry
non-increasing (newest-first) timestamps. -/
theorem C5_metric_rows_reversed (range : DateTimeRange) (ts : List Int) (vs : List String)
    (hlen : ts.length = vs.length) (hne : ts ≠ [])
    (hsorted : ts.Pairwise (· ≤ ·)) :
    cloudwatch_metric.extract_to_csv range ⟨[⟨ts, vs⟩]⟩ =
      .ok (some (Csv.renderRecord ["timestamp", "value"] ++
        String.join (((ts.zip vs).reverse).map fun tv =>
          Csv.renderRecord [Chrono.formatTimestampMillis range.time_zone tv.1, tv.2]))) ∧
    (((ts.zip vs).reverse).map Prod.fst).Pairwise (· ≥ ·) := by
  have hrec : cloudwatch_metric.extractRecords range ⟨[⟨ts, vs⟩]⟩ =
      ((ts.zip vs).reverse).map fun tv =>
        [Chrono.formatTimestampMillis range.time_zone tv.1, tv.2] := by
    simp [cloudwatch_metric.extractRecords, zip_reverse_eq ts vs hlen]
  constructor
  · have hlen0 : ¬ (cloudwatch_metric.extractRecords range ⟨[⟨ts, vs⟩]⟩).length = 0 := by
      rw [hrec]
      simp only [List.length_map, List.length_reverse, List.length_zip, hlen,
        Nat.min_self]
      intro h0
      exact hne (List.length_eq_zero.mp (by omega))
    simp only [cloudwatch_metric.extract_to_csv, if_neg hlen0]
    rw [hrec, List.map_map]
    rfl
  · have hfst : ((ts.zip vs).reverse).map Prod.fst = ts.reverse := by
      rw [List.map_reverse, List.map_fst_zip ts vs (by omega)]
    rw [hfst, List.pairwise_reverse]
    exact hsorted

/-- Witness for C5: the four oldest-to-newest half-hour points of the
repository test, rendered newest-first in the +08:00 display timezone. -/
theorem C5_metric_rows_reversed_witness :
    ([1697103000000, 1697104800000, 1697106600000, 1697108400000] : List Int).Pairwise (· ≤ ·) ∧
    cloudwatch_metric.extract_to_csv ⟨1697103000000, 1697108400000, ⟨"PST", 28800⟩⟩
        ⟨[⟨[1697103000000, 1697104800000, 1697106600000, 1697108400000],
          ["1", "2", "3", "4"]⟩]⟩ =
      .ok (some ("timestamp,value\n2023-10-12 19:00:00 PST,4\n2023-10-12 18:30:00 PST,3\n" ++
        "2023-10-12 18:00:00 PST,2\n2023-10-12 17:30:00 PST,1\n")) :=
  ⟨by decide,
    ((C5_metric_rows_reversed ⟨1697103000000, 1697108400000, ⟨"PST", 28800⟩⟩
      [1697103000000, 1697104800000, 1697106600000, 1697108400000]
      ["1", "2", "3", "4"] rfl (by decide) (by decide)).1).trans (by rfl)⟩

namespace cloudwatch_log_insight

/-- The first field of a row that fails the cycling column match, together
with the column the cursor expected there, when such a field exists. -/
def firstMismatch (cols : List String) : Nat → List ResultField → Option (String × String)
  | _, [] => none
  | i, f :: rest =>
    if f.field = "@ptr" then firstMismatch cols i rest
    else if expectedCol cols i = f.field then
      firstMismatch cols ((i + 1) % cols.length) rest
    else
      some (expectedCol cols i, f.field)

theorem processFields_of_firstMismatch (cols : List String) :
    ∀ (fields : List ResultField) (i : Nat) (e a : String),
      firstMismatch cols i fields = some (e, a) →
      processFields cols i fields =
        .error (.panic ("Expected column not matched! Expected: " ++ e ++ ", Actual: " ++ a)) := by
  intro fields
  induction fields with
  | nil => intro i e a h; simp [firstMismatch] at h
  | cons f rest ih =>
    intro i e a h
    by_cases hptr : f.field = "@ptr"
    · rw [firstMismatch, if_pos hptr] at h
      rw [processFields, if_pos hptr]
      exact ih i e a h
    · by_cases hm : expectedCol cols i = f.field
      · rw [firstMismatch, if_neg hptr, if_pos hm] at h
        rw [processFields, if_neg hptr, if_pos hm, ih ((i + 1) % cols.length) e a h]
      · rw [firstMismatch, if_neg hptr, if_neg hm] at h
        obtain ⟨he, ha⟩ : expectedCol cols i = e ∧ f.field = a := by
          simpa using h
        rw [processFields, if_neg hptr, if_neg hm, he, ha]

/-- The log-insight configuration of the C3 mismatch example. -/
def c3Config : CloudwatchLogInsightConfig :=
  ⟨1, "", "", "", ["column1", "columnB"]⟩

end cloudwatch_log_insight

/-- C3: whenever the cycling positional match of the row extraction meets a
non-ptr field whose name differs from the expected column, the field loop,
the row loop from any intermediate writer state, and the whole extraction
(with the mismatch in the first row) all abort with the panic message
naming both the expected and the actual column name, so no csv payload is
produced. -/
theorem C3_column_mismatch_fatal :
    (∀ (cols : List String) (i : Nat) (fields : List cloudwatch_log_insight.ResultField)
        (e a : String),
        cloudwatch_log_insight.firstMismatch cols i fields = some (e, a) →
        cloudwatch_log_insight.processFields cols i fields =
          .error (.panic ("Expected column not matched! Expected: " ++ e ++ ", Actual: " ++ a))) ∧
    (∀ (cols : List String) (i rows_count : Nat) (w : Csv.Writer)
        (fields : List cloudwatch_log_insight.ResultField)
        (rest : List (List cloudwatch_log_insight.ResultField)) (e a : String),
        cloudwatch_log_insight.firstMismatch cols i fields = some (e, a) →
        cloudwatch_log_insight.processRows cols (fields :: rest) w i rows_count =
          .error (.panic ("Expected column not matched! Expected: " ++ e ++ ", Actual: " ++ a))) ∧
    (∀ (config : CloudwatchLogInsightConfig) (fields : List cloudwatch_log_insight.ResultField)
        (rest : List (List cloudwatch_log_insight.ResultField)) (e a : String),
        config.result_columns ≠ [] →
        cloudwatch_log_insight.firstMismatch config.result_columns 0 fields = some (e, a) →
        cloudwatch_log_insight.extract_to_csv (fields :: rest) config =
          .error (.panic ("Expected column not matched! Expected: " ++ e ++ ", Actual: " ++ a))) := by
  refine ⟨fun cols i fields e a h =>
      cloudwatch_log_insight.processFields_of_firstMismatch cols fields i e a h,
    fun cols i rows_count w fields rest e a h => ?_,
    fun config fields rest e a hne h => ?_⟩
  · rw [cloudwatch_log_insight.processRows,
      cloudwatch_log_insight.processFields_of_firstMismatch cols fields i e a h]
  · match hc : config.result_columns with
    | [] => exact absurd hc hne
    | c :: cs =>
      rw [hc] at h
      simp only [cloudwatch_log_insight.extract_to_csv, Csv.Writer.init, Csv.Writer.writeRecord, hc]
      simp only [List.isEmpty_cons, if_neg, Bool.false_eq_true, ite_false]
      rw [cloudwatch_log_insight.processRows,
        cloudwatch_log_insight.processFields_of_firstMismatch (c :: cs) fields 0 e a h]


/-- Witness for C3: under configured columns [column1, columnB], a row
whose second field is named column2 aborts the extraction with the exact
mismatch message of the repository test. -/
theorem C3_column_mismatch_fatal_witness :
    cloudwatch_log_insight.extract_to_csv
        [[⟨"column1", "row1-column1"⟩, ⟨"column2", "row1-column2"⟩]]
        cloudwatch_log_insight.c3Config =
      .error (.panic "Expected column not matched! Expected: columnB, Actual: column2") :=
  C3_column_mismatch_fatal.2.2 cloudwatch_log_insight.c3Config
    [⟨"column1", "row1-column1"⟩, ⟨"column2", "row1-column2"⟩] [] "columnB" "column2"
    (by simp [cloudwatch_log_insight.c3Config]) rfl

/-- Counterexample for C6: with a response carrying one empty reservation
and configured name X, the lookup panics with the message
"Unable to find EC2 instance with name: X", which is not the message
"Unable to find instance with name: X" the claim states. -/
theorem C6_instance_not_found_message_counterexample :
    ec2.fetch_instances ⟨[[]]⟩ "X" =
      .error (.panic "Unable to find EC2 instance with name: X") ∧
    ("Unable to find EC2 instance with name: X" : String) ≠
      "Unable to find instance with name: X" :=
  ⟨rfl, by decide⟩

/-- C6 (amended): a ComputeInstance lookup with zero matching instances
aborts fatally with "Unable to find EC2 instance with name: X" naming the
configured instance name; with N ≥ 1 matches, fetch_data returns exactly
one PromptData per matched instance, hence exactly N entries. -/
theorem C6_ec2_lookup :
    (∀ (client : ec2.ClientModel) (name : String),
        ec2.instancesOf client = [] →
        ec2.fetch_instances client name =
          .error (.panic ("Unable to find EC2 instance with name: " ++ name))) ∧
    (∀ (client : ec2.ClientModel) (config : Ec2Config),
        ec2.instancesOf client ≠ [] →
        ec2.fetch_data client config =
          .ok ((ec2.instancesOf client).map fun inst =>
            { description := ec2.build_description config inst, data := none })) ∧
    (∀ (client : ec2.ClientModel) (config : Ec2Config) (l : List PromptData),
        ec2.fetch_data client config = .ok l →
        l.length = (ec2.instancesOf client).length) := by
  refine ⟨fun client name h => ?_, fun client config h => ?_, fun client config l h => ?_⟩
  · simp [ec2.fetch_instances, h]
  · simp [ec2.fetch_data, ec2.fetch_instances, h]
  · revert h
    simp only [ec2.fetch_data, ec2.fetch_instances]
    by_cases he : (ec2.instancesOf client).isEmpty
    · simp [he]
    · simp only [he, Bool.false_eq_true, ite_false]
      intro h
      obtain rfl : (ec2.instancesOf client).map _ = l := by
        simpa using h
      simp

/-- The single matched instance used by the concrete lookups. -/
def mockEc2Instance : ec2.Instance :=
  ⟨"ec2-instance-id", "t3a.medium", 1, 2, "running"⟩

/-- Witness for C6: a client response with one matching instance makes
fetch_data return exactly one PromptData. -/
theorem C6_ec2_lookup_witness :
    ec2.instancesOf ⟨[[mockEc2Instance]]⟩ ≠ [] ∧
    ec2.fetch_data ⟨[[mockEc2Instance]]⟩ ⟨1, "ec2-instance-name"⟩ =
      .ok [{ description := ec2.build_description ⟨1, "ec2-instance-name"⟩ mockEc2Instance,
             data := none }] :=
  ⟨by simp [ec2.instancesOf, mockEc2Instance],
    C6_ec2_lookup.2.1 ⟨[[mockEc2Instance]]⟩ ⟨1, "ec2-instance-name"⟩
      (by simp [ec2.instancesOf, mockEc2Instance])⟩

/-- C9: dimension resolution of the metric fetcher.  Under the AWS/EC2
namespace the configured dimension value is resolved as an instance name
through the EC2 lookup, producing one dimension per matched instance id
and inheriting the fatal zero-match panic naming the dimension value;
under any other namespace exactly one dimension is built carrying the
configured name and value verbatim. -/
theorem C9_dimension_resolution :
    (∀ (ec2_client : ec2.ClientModel) (config : CloudwatchMetricConfig),
        config.metric_namespace = "AWS/EC2" →
        ec2.instancesOf ec2_client ≠ [] →
        cloudwatch_metric.build_dimension ec2_client config =
          .ok ((ec2.instancesOf ec2_client).map fun inst =>
            { name := config.dimension_name, value := inst.instance_id })) ∧
    (∀ (ec2_client : ec2.ClientModel) (config : CloudwatchMetricConfig),
        config.metric_namespace = "AWS/EC2" →
        ec2.instancesOf ec2_client = [] →
        cloudwatch_metric.build_dimension ec2_client config =
          .error (.panic ("Unable to find EC2 instance with name: " ++ config.dimension_value))) ∧
    (∀ (ec2_client : ec2.ClientModel) (config : CloudwatchMetricConfig),
        config.metric_namespace ≠ "AWS/EC2" →
        cloudwatch_metric.build_dimension ec2_client config =
          .ok [{ name := config.dimension_name, value := config.dimension_value }]) := by
  refine ⟨fun ec2_client config hns hinst => ?_, fun ec2_client config hns hinst => ?_,
    fun ec2_client config hns => ?_⟩
  · simp [cloudwatch_metric.build_dimension, hns, ec2.fetch_instances, hinst]
  · simp [cloudwatch_metric.build_dimension, hns, ec2.fetch_instances, hinst]
  · simp [cloudwatch_metric.build_dimension, hns]

/-- The AWS/EC2 metric configuration of the concrete resolutions. -/
def exampleMetricConfig : CloudwatchMetricConfig :=
  ⟨2, "InstanceId", "ec2-instance-name", "m1", "AWS/EC2", "CPUUtilization", "Average", none⟩

/-- The non-EC2 metric configuration of the concrete resolutions. -/
def exampleSqsMetricConfig : CloudwatchMetricConfig :=
  ⟨2, "QueueName", "my-queue", "m1", "AWS/SQS", "NumberOfMessagesSent", "Sum", none⟩

/-- Witness for C9: the EC2 namespace resolves the instance name to the
matched instance id; the SQS namespace keeps the configured value. -/
theorem C9_dimension_resolution_witness :
    cloudwatch_metric.build_dimension ⟨[[mockEc2Instance]]⟩ exampleMetricConfig =
      .ok [{ name := "InstanceId", value := "ec2-instance-id" }] ∧
    cloudwatch_metric.build_dimension ⟨[[mockEc2Instance]]⟩ exampleSqsMetricConfig =
      .ok [{ name := "QueueName", value := "my-queue" }] :=
  ⟨(C9_dimension_resolution.1 ⟨[[mockEc2Instance]]⟩ exampleMetricConfig rfl
      (by simp [ec2.instancesOf, mockEc2Instance])).trans (by rfl),
    (C9_dimension_resolution.2.2 ⟨[[mockEc2Instance]]⟩ exampleSqsMetricConfig
      (by simp [exampleSqsMetricConfig])).trans (by rfl)⟩

theorem metric_extract_isSome (range : DateTimeRange)
    (output : cloudwatch_metric.GetMetricDataOutput) :
    ∃ s, cloudwatch_metric.extract_to_csv range output = .ok (some s) := by
  unfold cloudwatch_metric.extract_to_csv
  by_cases h : (cloudwatch_metric.extractRecords range output).length = 0 <;>
    simp [h]

theorem log_extract_ok_isSome (results : List (List cloudwatch_log_insight.ResultField))
    (config : CloudwatchLogInsightConfig) (x : Option String)
    (h : cloudwatch_log_insight.extract_to_csv results config = .ok x) :
    x.isSome := by
  revert h
  unfold cloudwatch_log_insight.extract_to_csv
  cases Csv.Writer.init.writeRecord config.result_columns with
  | error e => intro h; cases h
  | ok w1 =>
    by_cases he : config.result_columns.isEmpty
    · simp [he]
    · simp only [he, Bool.false_eq_true, ite_false]
      cases cloudwatch_log_insight.processRows config.result_columns results w1 0 0 with
      | error e => intro h; cases h
      | ok wr =>
        by_cases hz : wr.2 = 0 <;> simp [hz] <;> intro h <;> simp [← h]

theorem metric_fetch_loop_members (client : cloudwatch_metric.Dimension →
      cloudwatch_metric.GetMetricDataOutput)
    (config : CloudwatchMetricConfig) (range : DateTimeRange) :
    ∀ (dims : List cloudwatch_metric.Dimension) (l : List PromptData),
      cloudwatch_metric.fetch_loop client config range dims = .ok l →
      ∀ pd ∈ l, pd.description ≠ [] ∧ pd.data.isSome := by
  intro dims
  induction dims with
  | nil =>
    intro l h pd hpd
    rw [cloudwatch_metric.fetch_loop] at h
    obtain rfl : ([] : List PromptData) = l := by simpa using h
    cases hpd
  | cons dimension rest ih =>
    intro l h pd hpd
    revert h
    rw [cloudwatch_metric.fetch_loop]
    obtain ⟨s, hs⟩ := metric_extract_isSome range (client dimension)
    rw [hs]
    cases hloop : cloudwatch_metric.fetch_loop client config range rest with
    | error e => intro h; cases h
    | ok tail =>
      intro h
      obtain rfl :
          PromptData.mk (cloudwatch_metric.build_description config dimension) (some s) ::
            tail = l := by
        simpa using h
      rcases hpd with _ | hpd
      · refine ⟨?_, rfl⟩
        unfold cloudwatch_metric.build_description
        cases config.metric_unit <;> simp
      · exact ih tail hloop pd (by assumption)

/-- C8: every PromptData any fetcher produces has a non-empty description;
the AppDescription, EC2 and RDS fetchers always leave the data payload
absent, while the metric and log-insight fetchers always populate it. -/
theorem C8_prompt_data_shape :
    (∀ config : AppDescConfig,
        (app_description.fetch_data config).description ≠ [] ∧
        (app_description.fetch_data config).data = none) ∧
    (∀ (client : ec2.ClientModel) (config : Ec2Config) (l : List PromptData),
        ec2.fetch_data client config = .ok l →
        ∀ pd ∈ l, pd.description ≠ [] ∧ pd.data = none) ∧
    (∀ (client : rds.ClientModel) (config : RdsConfig) (pd : PromptData),
        rds.fetch_data client config = .ok pd →
        pd.description ≠ [] ∧ pd.data = none) ∧
    (∀ (client : cloudwatch_metric.Dimension → cloudwatch_metric.GetMetricDataOutput)
        (ec2_client : ec2.ClientModel) (config : CloudwatchMetricConfig)
        (range : DateTimeRange) (l : List PromptData),
        cloudwatch_metric.fetch_data client ec2_client config range = .ok l →
        ∀ pd ∈ l, pd.description ≠ [] ∧ pd.data.isSome) ∧
    (∀ (client : cloudwatch_log_insight.ClientModel) (config : CloudwatchLogInsightConfig)
        (range : DateTimeRange) (pd : PromptData),
        cloudwatch_log_insight.fetch_data client config range = .ok pd →
        pd.description ≠ [] ∧ pd.data.isSome) := by
  refine ⟨fun config => ⟨by simp [app_description.fetch_data], rfl⟩,
    fun client config l h pd hpd => ?_, fun client config pd h => ?_,
    fun client ec2_client config range l h pd hpd => ?_,
    fun client config range pd h => ?_⟩
  · revert h
    unfold ec2.fetch_data
    cases ec2.fetch_instances client config.instance_name with
    | error e => intro h; cases h
    | ok instances =>
      intro h
      obtain rfl : instances.map _ = l := by simpa using h
      obtain ⟨inst, _, rfl⟩ := List.mem_map.mp hpd
      exact ⟨by simp [ec2.build_description], rfl⟩
  · revert h
    unfold rds.fetch_data
    cases client.db_instances.find?
        (fun d => d.db_instance_identifier.getD "" = config.db_identifier) with
    | none => intro h; cases h
    | some inst =>
      intro h
      obtain rfl : PromptData.mk (rds.build_description config inst) none = pd := by
        simpa using h
      exact ⟨by simp [rds.build_description], rfl⟩
  · revert h
    unfold cloudwatch_metric.fetch_data
    cases cloudwatch_metric.build_dimension ec2_client config with
    | error e => intro h; cases h
    | ok dimensions =>
      intro h
      exact metric_fetch_loop_members client config range dimensions l h pd hpd
  · revert h
    unfold cloudwatch_log_insight.fetch_data
    cases client.query_id with
    | none => intro h; cases h
    | some qid =>
      cases cloudwatch_log_insight.pollStatuses client.statuses with
      | error e => intro h; cases h
      | ok wp =>
        cases hx : cloudwatch_log_insight.extract_to_csv client.results config with
        | error e => intro h; cases h
        | ok x =>
          intro h
          obtain rfl :
              PromptData.mk (cloudwatch_log_insight.build_description config) x = pd := by
            simpa using h
          exact ⟨by simp [cloudwatch_log_insight.build_description],
            log_extract_ok_isSome client.results config x hx⟩

/-- The PromptData of the concrete EC2 fetch. -/
def c8Ec2PromptData : PromptData :=
  ⟨ec2.build_description ⟨1, "ec2-instance-name"⟩ mockEc2Instance, none⟩

/-- The single matched database instance used by the concrete RDS fetch. -/
def mockRdsInstance : rds.DbInstance :=
  ⟨some "db-identifier-name", "db.t4g.medium", "postgresql", "16.1", "some storage",
    "running", true⟩

/-- The PromptData of the concrete RDS fetch. -/
def c8RdsPromptData : PromptData :=
  ⟨rds.build_description ⟨1, "db-identifier-name"⟩ mockRdsInstance, none⟩

/-- A metric client answering every query with one single-point series. -/
def mockMetricClient : cloudwatch_metric.Dimension → cloudwatch_metric.GetMetricDataOutput :=
  fun _ => ⟨[⟨[1697103000000], ["1"]⟩]⟩

/-- The PromptData of the concrete metric fetch. -/
def c8MetricPromptData : PromptData :=
  ⟨cloudwatch_metric.build_description exampleMetricConfig ⟨"InstanceId", "ec2-instance-id"⟩,
    some "timestamp,value\n2023-10-12 17:30:00 PST,1\n"⟩

/-- A logs client that completes after two waits and returns one row. -/
def mockLogClient : cloudwatch_log_insight.ClientModel :=
  ⟨some "query_id", [.scheduled, .running, .complete],
    [[⟨"column1", "row1-column1"⟩, ⟨"column2", "row1-column2"⟩]]⟩

/-- The PromptData of the concrete log-insight fetch. -/
def c8LogPromptData : PromptData :=
  ⟨cloudwatch_log_insight.build_description c2Config,
    some "column1,column2\nrow1-column1,row1-column2\n"⟩

/-- Witness for C8: the five fetchers evaluated on concrete mock clients. -/
theorem C8_prompt_data_shape_witness :
    ((app_description.fetch_data ⟨5, "App description"⟩).description ≠ [] ∧
      (app_description.fetch_data ⟨5, "App description"⟩).data = none) ∧
    (c8Ec2PromptData.description ≠ [] ∧ c8Ec2PromptData.data = none) ∧
    (c8RdsPromptData.description ≠ [] ∧ c8RdsPromptData.data = none) ∧
    (c8MetricPromptData.description ≠ [] ∧ c8MetricPromptData.data.isSome) ∧
    (c8LogPromptData.description ≠ [] ∧ c8LogPromptData.data.isSome) :=
  ⟨C8_prompt_data_shape.1 ⟨5, "App description"⟩,
    C8_prompt_data_shape.2.1 ⟨[[mockEc2Instance]]⟩ ⟨1, "ec2-instance-name"⟩
      [c8Ec2PromptData] rfl c8Ec2PromptData (List.mem_singleton.mpr rfl),
    C8_prompt_data_shape.2.2.1 ⟨[mockRdsInstance]⟩ ⟨1, "db-identifier-name"⟩
      c8RdsPromptData rfl,
    C8_prompt_data_shape.2.2.2.1 mockMetricClient ⟨[[mockEc2Instance]]⟩ exampleMetricConfig
      ⟨1697103000000, 1697108400000, ⟨"PST", 28800⟩⟩ [c8MetricPromptData] rfl
      c8MetricPromptData (List.mem_singleton.mpr rfl),
    C8_prompt_data_shape.2.2.2.2 mockLogClient c2Config ⟨0, 0, ⟨"UTC", 0⟩⟩
      c8LogPromptData rfl⟩

namespace cloudwatch_log_insight

/-- The number of fields of a row that survive the @ptr discard. -/
def nonPtrCount (row : List ResultField) : Nat :=
  (row.filter fun f => f.field != "@ptr").length

theorem processFields_ok_length (cols : List String) :
    ∀ (fields : List ResultField) (i : Nat) (values : List String) (i2 : Nat),
      processFields cols i fields = .ok (values, i2) →
      values.length = nonPtrCount fields := by
  intro fields
  induction fields with
  | nil =>
    intro i values i2 h
    obtain ⟨rfl, rfl⟩ : ([] : List String) = values ∧ i = i2 := by
      simpa [processFields] using h
    rfl
  | cons f rest ih =>
    intro i values i2 h
    by_cases hptr : f.field = "@ptr"
    · rw [processFields, if_pos hptr] at h
      rw [nonPtrCount, List.filter_cons_of_neg (by simp [hptr])]
      exact ih i values i2 h
    · rw [processFields, if_neg hptr] at h
      by_cases hm : expectedCol cols i = f.field
      · rw [if_pos hm] at h
        cases hpf : processFields cols ((i + 1) % cols.length) rest with
        | error e => rw [hpf] at h; cases h
        | ok vi =>
          rw [hpf] at h
          obtain ⟨rfl, rfl⟩ : f.value :: vi.1 = values ∧ vi.2 = i2 := by
            simpa using h
          rw [nonPtrCount, List.filter_cons_of_pos (by simp [hptr])]
          simpa [nonPtrCount] using ih ((i + 1) % cols.length) vi.1 vi.2 hpf
      · rw [if_neg hm] at h
        cases h

theorem writeRecord_ok_facts (w w2 : Csv.Writer) (values : List String) (n : Nat)
    (hw : w.firstFieldCount = some n) (h : w.writeRecord values = .ok w2) :
    values.length ≤ n ∧ w2.firstFieldCount = some n := by
  simp only [Csv.Writer.writeRecord, hw] at h
  by_cases he : values.isEmpty
  · simp only [he, if_true] at h
    by_cases h1 : (1 : Nat) = n
    · rw [if_pos h1] at h
      injection h with h2
      subst h2
      have hv : values = [] := by simpa using he
      subst hv
      exact ⟨by simp, by simpa using hw⟩
    · rw [if_neg h1] at h
      cases h
  · simp only [he, if_false, Bool.false_eq_true] at h
    by_cases h1 : values.length = n
    · rw [if_pos h1] at h
      injection h with h2
      subst h2
      exact ⟨Nat.le_of_eq h1, by simpa using hw⟩
    · rw [if_neg h1] at h
      cases h

theorem writeRecord_init_count (fields : List String) (w1 : Csv.Writer)
    (h : Csv.Writer.init.writeRecord fields = .ok w1) :
    w1.firstFieldCount = some (if fields.isEmpty then 1 else fields.length) := by
  simp only [Csv.Writer.writeRecord, Csv.Writer.init] at h
  injection h with h1
  rw [← h1]

theorem processRows_ok_widths (cols : List String) :
    ∀ (rowsList : List (List ResultField)) (w : Csv.Writer) (i cnt n : Nat)
      (wr : Csv.Writer × Nat),
      w.firstFieldCount = some n →
      processRows cols rowsList w i cnt = .ok wr →
      ∀ row ∈ rowsList, nonPtrCount row ≤ n := by
  intro rowsList
  induction rowsList with
  | nil => intro w i cnt n wr hw h row hrow; cases hrow
  | cons row rest ih =>
    intro w i cnt n wr hw h r hr
    rw [processRows] at h
    split at h
    · cases h
    · rename_i vi hpf
      split at h
      · cases h
      · rename_i w2 hwr
        obtain ⟨hle, hw2⟩ := writeRecord_ok_facts w w2 vi.1 n hw hwr
        cases hr with
        | head =>
          have hlen := processFields_ok_length cols row i vi.1 vi.2 hpf
          omega
        | tail _ hr => exact ih w2 vi.2 (cnt + 1) n wr hw2 h r hr

end cloudwatch_log_insight

/-- The log-insight configuration of the C10 examples. -/
def c10Config : CloudwatchLogInsightConfig :=
  ⟨1, "", "", "", ["column1", "column2"]⟩

/-- A single row whose non-ptr field names are the configured column
sequence repeated twice. -/
def c10RepeatedRow : List cloudwatch_log_insight.ResultField :=
  [⟨"column1", "a"⟩, ⟨"column2", "b"⟩, ⟨"column1", "c"⟩, ⟨"column2", "d"⟩]

/-- Counterexample for C10: the row carrying the column sequence repeated
twice is accepted by the cycling column match (four values, cursor back at
the start), but the extraction of that single row is not an accepted csv
record: the record write fails the width check of the csv writer (header
width 2, record width 4) and extraction returns the unequal-lengths error
instead of a payload. -/
theorem C10_repeated_row_counterexample :
    cloudwatch_log_insight.processFields ["column1", "column2"] 0 c10RepeatedRow =
      .ok (["a", "b", "c", "d"], 0) ∧
    cloudwatch_log_insight.extract_to_csv [c10RepeatedRow] c10Config =
      .error (.unequalLengths 2 4) :=
  ⟨rfl, rfl⟩

/-- C10 (amended): the expected-column cursor cycles through
result_columns and is threaded across row boundaries without reset (the
row loop hands the cursor left by one row to the next); a row with a
single matching field leaves the cursor mid-cycle; a row carrying the
column sequence repeated k > 1 times is accepted by the column matching
with k times as many values as configured columns, but writing that record
fails the unequal-lengths width check of the csv writer, so extraction
errors and no csv payload is produced; a row whose non-ptr field count is
not the configured column count likewise errors at its own record write,
before any later row is examined; in general a successful extraction
forces every row to carry at most as many non-ptr fields as there are
configured columns. -/
theorem C10_cursor_threading_and_width_check :
    (∀ (cols : List String) (row : List cloudwatch_log_insight.ResultField)
        (rest : List (List cloudwatch_log_insight.ResultField)) (w : Csv.Writer) (i cnt : Nat),
        cloudwatch_log_insight.processRows cols (row :: rest) w i cnt =
          match cloudwatch_log_insight.processFields cols i row with
          | .error e => .error e
          | .ok vi =>
            match w.writeRecord vi.1 with
            | .error e => .error e
            | .ok w2 => cloudwatch_log_insight.processRows cols rest w2 vi.2 (cnt + 1)) ∧
    cloudwatch_log_insight.processFields ["column1", "column2"] 0 [⟨"column1", "a"⟩] =
      .ok (["a"], 1) ∧
    cloudwatch_log_insight.processFields ["column1", "column2"] 0 c10RepeatedRow =
      .ok (["a", "b", "c", "d"], 0) ∧
    cloudwatch_log_insight.extract_to_csv [c10RepeatedRow] c10Config =
      .error (.unequalLengths 2 4) ∧
    cloudwatch_log_insight.extract_to_csv [[⟨"column1", "a"⟩], [⟨"column2", "b"⟩]] c10Config =
      .error (.unequalLengths 2 1) ∧
    (∀ (config : CloudwatchLogInsightConfig)
        (results : List (List cloudwatch_log_insight.ResultField)) (x : Option String),
        cloudwatch_log_insight.extract_to_csv results config = .ok x →
        ∀ row ∈ results,
          cloudwatch_log_insight.nonPtrCount row ≤ config.result_columns.length) := by
  refine ⟨fun cols row rest w i cnt => rfl, rfl, rfl, rfl, rfl,
    fun config results x h row hrow => ?_⟩
  revert h
  unfold cloudwatch_log_insight.extract_to_csv
  cases hw1 : Csv.Writer.init.writeRecord config.result_columns with
  | error e => intro h; cases h
  | ok w1 =>
    by_cases he : config.result_columns.isEmpty
    · simp [he]
    · simp only [he, Bool.false_eq_true, ite_false]
      cases hpr : cloudwatch_log_insight.processRows config.result_columns results w1 0 0 with
      | error e => intro h; cases h
      | ok wr =>
        intro h
        have hw1c : w1.firstFieldCount = some config.result_columns.length := by
          rw [cloudwatch_log_insight.writeRecord_init_count config.result_columns w1 hw1]
          simp [he]
        exact cloudwatch_log_insight.processRows_ok_widths config.result_columns results
          w1 0 0 config.result_columns.length wr hw1c hpr row hrow

/-- Witness for C10: a successful extraction of one well-formed row obeys
the per-row width bound. -/
theorem C10_cursor_threading_and_width_check_witness :
    ∀ row ∈ [[(⟨"column1", "row1-column1"⟩ : cloudwatch_log_insight.ResultField),
        ⟨"column2", "row1-column2"⟩]],
      cloudwatch_log_insight.nonPtrCount row ≤ c10Config.result_columns.length :=
  fun row hrow =>
    C10_cursor_threading_and_width_check.2.2.2.2.2 c10Config
      [[⟨"column1", "row1-column1"⟩, ⟨"column2", "row1-column2"⟩]]
      (some "column1,column2\nrow1-column1,row1-column2\n") rfl row hrow
